import Mathlib

/-!
Verification of the insight/nudge-generation engine of the Spend-Smart
backend (src/server/src/services/aiService.js), against the repository
specification.

Modelling conventions for the shallow embedding:

* JS numbers are modelled as `ℚ` (exact rationals).  `x.toFixed(d)` followed
  by `parseFloat` is modelled by `roundTo d`; `Math.round` is `round`
  (Mathlib's `round q = ⌊q + 1/2⌋`, which agrees with JS `Math.round`).
* Each nudge object carries a template-literal id of the shape
  `prefix_..._${Date.now()}`.  The model stores the fixed leading part of the
  id in the field `tag` (this is the per-construction-site discriminator the
  spec calls the nudge kind) and the trailing `Date.now()` component in the
  field `ts`, which is exactly the value `prioritizeNudges` recovers with
  `parseInt(id.split(_).pop())`.
* Display-only strings (`message`, `promptTemplate`) are omitted from the
  model; `title` is kept.  `metadata` is an association list from the literal
  JS keys to a small value type.
* `Array.prototype.sort` (stable, sorted w.r.t. the comparator) is modelled
  by `List.mergeSort` with the boolean test `cmp a b ≤ 0`.
* Database reads (`getUserExpenses`, `getCategorySpendingThisMonth`,
  `getTotalSpending`, `getUserInfo`) are modelled as explicit inputs gathered
  before the evaluators run, collected in the structure `Gathered`;
  `getUserCategories` is modelled over an explicit category collection.
* `moment(date).day()` (0 = Sunday … 6 = Saturday) is stored directly on the
  modelled expense as `day`; wall-clock derived quantities (the current-month
  spend per category, `remainingDays`, `Date.now()`) are explicit parameters.
-/

namespace SpendSmart

/-- Nudge priorities, mirroring NUDGE_PRIORITY in src/server/src/config/constants.js. -/
inductive Priority
  | high
  | medium
  | low
deriving DecidableEq, Repr

/-- Nudge types, mirroring NUDGE_TYPES in src/server/src/config/constants.js. -/
inductive NudgeType
  | weekendSpending
  | budgetOverage
  | spendingTrend
  | streakCelebration
  | categoryPattern
  | savingsMilestone
deriving DecidableEq, Repr

/-- The declared members of the NUDGE_TYPES enumeration object, in source order. -/
def NUDGE_TYPES : List NudgeType :=
  [.weekendSpending, .budgetOverage, .spendingTrend,
   .streakCelebration, .categoryPattern, .savingsMilestone]

/-- Values stored in a nudge metadata object. -/
inductive MetaVal
  | num (q : ℚ)
  | str (s : String)
  | bool (b : Bool)
deriving DecidableEq, Repr

/-- A nudge record as constructed in aiService.js.  `tag` is the fixed leading
part of the template-literal id (the construction-site discriminator, e.g.
`budget_warning` from the id `budget_warning_${category._id}_${Date.now()}`);
`ts` is the trailing `Date.now()` component of the id. -/
structure Nudge where
  tag : String
  type : NudgeType
  title : String
  priority : Priority
  actionable : Bool
  metadata : List (String × MetaVal)
  ts : ℕ
deriving DecidableEq, Repr

/-- Model of `parseFloat(x.toFixed(d))`: round to `d` decimal places. -/
def roundTo (d : ℕ) (q : ℚ) : ℚ :=
  ((round (q * 10 ^ d) : ℤ) : ℚ) / 10 ^ d

/-- An expense as consumed by the evaluators: monetary `amount`, the
`moment(date).day()` day-of-week (0 = Sunday … 6 = Saturday), and the string
form of the category reference. -/
structure Expense where
  amount : ℚ
  day : ℕ
  categoryId : String
deriving DecidableEq, Repr

/-- A category document.  `monthlyBudget` is `none` when the field is absent;
the source guard `!category.monthlyBudget || category.monthlyBudget <= 0`
skips both `none` and non-positive values (0 is falsy in JS). -/
structure Category where
  id : String
  userId : String
  name : String
  isActive : Bool
  monthlyBudget : Option ℚ
deriving DecidableEq, Repr

/-- The user streak snapshot (`user.streak`). -/
structure Streak where
  current : ℤ
  longest : ℤ
deriving DecidableEq, Repr

/-- The weekend partition of detectWeekendSpending (aiService.js lines
104-107): day-of-week 0 (Sunday) or 6 (Saturday). -/
def weekendExpensesOf (expenses : List Expense) : List Expense :=
  expenses.filter fun e => e.day == 0 || e.day == 6

/-- The weekday partition of detectWeekendSpending (aiService.js lines
109-112): day-of-week 1 (Monday) through 5 (Friday). -/
def weekdayExpensesOf (expenses : List Expense) : List Expense :=
  expenses.filter fun e => decide (1 ≤ e.day) && decide (e.day ≤ 5)

/-- The mean weekend transaction amount (aiService.js line 118). -/
def weekendAvgOf (expenses : List Expense) : ℚ :=
  ((weekendExpensesOf expenses).map Expense.amount).sum / (weekendExpensesOf expenses).length

/-- The mean weekday transaction amount (aiService.js line 119). -/
def weekdayAvgOf (expenses : List Expense) : ℚ :=
  ((weekdayExpensesOf expenses).map Expense.amount).sum / (weekdayExpensesOf expenses).length

/-- The weekend-to-weekday spending ratio (aiService.js line 121). -/
def weekendRatioOf (expenses : List Expense) : ℚ :=
  weekendAvgOf expenses / weekdayAvgOf expenses

/-- detectWeekendSpending (aiService.js lines 103-141). -/
def detectWeekendSpending (expenses : List Expense) (ts : ℕ) : Option Nudge :=
  let weekendExpenses := weekendExpensesOf expenses
  let weekdayExpenses := weekdayExpensesOf expenses
  if weekendExpenses.length = 0 ∨ weekdayExpenses.length = 0 then
    none
  else
    let weekendAvg := weekendAvgOf expenses
    let weekdayAvg := weekdayAvgOf expenses
    let ratio := weekendRatioOf expenses
    if 18 / 10 < ratio then
      some
        { tag := "weekend_spending"
          type := .weekendSpending
          title := "Weekend Spending Alert"
          priority := if 25 / 10 < ratio then .high else .medium
          actionable := true
          metadata :=
            [("ratio", .num (roundTo 2 ratio)),
             ("weekendAvg", .num (roundTo 2 weekendAvg)),
             ("weekdayAvg", .num (roundTo 2 weekdayAvg))]
          ts := ts }
    else
      none

/-- Body of the per-category loop of detectBudgetOverspend (aiService.js
lines 149-194): the nudges a single category contributes, given its
current-calendar-month spend and the `remainingDays` wall-clock value. -/
def budgetNudgeFor (c : Category) (spent : ℚ) (remainingDays : ℤ) (ts : ℕ) : List Nudge :=
  match c.monthlyBudget with
  | none => []
  | some b =>
    if b ≤ 0 then []
    else
      let percentage := spent / b * 100
      if 100 ≤ percentage then
        [{ tag := "budget_overage"
           type := .budgetOverage
           title := c.name ++ " Budget Exceeded"
           priority := .high
           actionable := true
           metadata :=
             [("categoryId", .str c.id),
              ("categoryName", .str c.name),
              ("budget", .num b),
              ("spent", .num spent),
              ("percentage", .num (roundTo 1 percentage))]
           ts := ts }]
      else if 80 ≤ percentage then
        [{ tag := "budget_warning"
           type := .budgetOverage
           title := c.name ++ " Budget Warning"
           priority := .medium
           actionable := true
           metadata :=
             [("categoryId", .str c.id),
              ("categoryName", .str c.name),
              ("budget", .num b),
              ("spent", .num spent),
              ("percentage", .num (roundTo 1 percentage)),
              ("remainingDays", .num (remainingDays : ℚ))]
           ts := ts }]
      else []

/-- detectBudgetOverspend (aiService.js lines 146-197).  `spentThisMonth`
models `getCategorySpendingThisMonth` (a read-only aggregate keyed by the
category id). -/
def detectBudgetOverspend (categories : List Category) (spentThisMonth : String → ℚ)
    (remainingDays : ℤ) (ts : ℕ) : List Nudge :=
  categories.flatMap fun c => budgetNudgeFor c (spentThisMonth c.id) remainingDays ts

/-- analyzeSpendingTrendsForNudge (aiService.js lines 202-250), as a function
of the two period totals returned by `getTotalSpending`. -/
def analyzeSpendingTrendsForNudge (currentPeriodTotal previousPeriodTotal : ℚ)
    (ts : ℕ) : Option Nudge :=
  if previousPeriodTotal = 0 then none
  else
    let changePercentage := (currentPeriodTotal - previousPeriodTotal) / previousPeriodTotal * 100
    if |changePercentage| < 15 then none
    else if 15 < changePercentage then
      some
        { tag := "spending_increase"
          type := .spendingTrend
          title := "Spending Increasing"
          priority := .medium
          actionable := true
          metadata :=
            [("currentPeriodTotal", .num (roundTo 2 currentPeriodTotal)),
             ("previousPeriodTotal", .num (roundTo 2 previousPeriodTotal)),
             ("changePercentage", .num (roundTo 1 changePercentage))]
          ts := ts }
    else if changePercentage < -10 then
      some
        { tag := "spending_decrease"
          type := .spendingTrend
          title := "Great Job!"
          priority := .low
          actionable := false
          metadata :=
            [("currentPeriodTotal", .num (roundTo 2 currentPeriodTotal)),
             ("previousPeriodTotal", .num (roundTo 2 previousPeriodTotal)),
             ("changePercentage", .num (roundTo 1 changePercentage))]
          ts := ts }
    else none

/-- generateMotivationalNudges (aiService.js lines 255-286). -/
def generateMotivationalNudges (streak : Streak) (ts : ℕ) : List Nudge :=
  let current := streak.current
  let longest := streak.longest
  (if current = 7 then
    [{ tag := "streak_7"
       type := .streakCelebration
       title := "🔥 7-Day Streak!"
       priority := .low
       actionable := false
       metadata := [("streakDays", .num (current : ℚ))]
       ts := ts }]
  else []) ++
  (if current = longest ∧ longest - 1 < current ∧ 0 < current then
    [{ tag := "personal_best"
       type := .streakCelebration
       title := "🎉 New Personal Record!"
       priority := .low
       actionable := false
       metadata := [("streakDays", .num (current : ℚ)), ("personalBest", .bool true)]
       ts := ts }]
  else [])

/-- Key insertion for the JS object used to group expenses by category:
string (non-array-index) keys keep insertion order. -/
def insertKey (ks : List String) (k : String) : List String :=
  if k ∈ ks then ks else ks ++ [k]

/-- The ordered list of distinct category-id keys of the grouping object built
by detectCategoryPatterns (aiService.js lines 295-302). -/
def groupKeys (expenses : List Expense) : List String :=
  expenses.foldl (fun ks e => insertKey ks e.categoryId) []

/-- Body of the per-group loop of detectCategoryPatterns (aiService.js lines
304-353): the nudges one category group contributes. -/
def patternNudgesFor (categoryId : String) (group : List Expense)
    (categories : List Category) (ts : ℕ) : List Nudge :=
  match categories.find? (fun c => c.id == categoryId) with
  | none => []
  | some category =>
    let smallPurchases := group.filter fun e => e.amount < 200
    (if 10 ≤ smallPurchases.length then
      [{ tag := "small_purchases"
         type := .categoryPattern
         title := category.name ++ " Small Purchases"
         priority := .medium
         actionable := true
         metadata :=
           [("categoryId", .str categoryId),
            ("categoryName", .str category.name),
            ("count", .num (smallPurchases.length : ℚ)),
            ("totalAmount", .num (roundTo 2 (smallPurchases.map Expense.amount).sum))]
         ts := ts }]
    else []) ++
    (let amounts := (group.map Expense.amount).mergeSort fun a b => decide (b ≤ a)
     if 3 ≤ amounts.length then
       let median := amounts.getD (amounts.length / 2) 0
       let largest := amounts.getD 0 0
       if median * 5 < largest then
         [{ tag := "unusual_spike"
            type := .categoryPattern
            title := category.name ++ " Spending Spike"
            priority := .medium
            actionable := true
            metadata :=
              [("categoryId", .str categoryId),
               ("categoryName", .str category.name),
               ("largestExpense", .num (roundTo 2 largest)),
               ("medianExpense", .num (roundTo 2 median))]
            ts := ts }]
       else []
     else [])

/-- detectCategoryPatterns (aiService.js lines 291-356). -/
def detectCategoryPatterns (expenses : List Expense) (categories : List Category)
    (ts : ℕ) : List Nudge :=
  (groupKeys expenses).flatMap fun categoryId =>
    patternNudgesFor categoryId (expenses.filter fun e => e.categoryId == categoryId)
      categories ts

/-- detectSavingsMilestones (aiService.js lines 361-365): unconditionally the
empty list. -/
def detectSavingsMilestones : List Nudge := []

/-- The priorityOrder ranking of prioritizeNudges (aiService.js lines 371-375).
The source comparator falls back to rank 3 for an unknown priority string;
the `Priority` type is closed, so the fallback is unreachable here. -/
def priorityOrder : Priority → ℤ
  | .high => 1
  | .medium => 2
  | .low => 3

/-- The comparator of prioritizeNudges (aiService.js lines 377-387), as the
boolean test `cmp a b ≤ 0`: the comparator returns `priorityA - priorityB`
when the ranks differ and otherwise `tsB - tsA` (the timestamps parsed from
the ids). -/
def nudgeLe (a b : Nudge) : Bool :=
  decide (priorityOrder a.priority < priorityOrder b.priority) ||
    (decide (priorityOrder a.priority = priorityOrder b.priority) && decide (b.ts ≤ a.ts))

/-- prioritizeNudges (aiService.js lines 370-388): a stable sort by the
comparator (`Array.prototype.sort` is stable per the ECMAScript spec). -/
def prioritizeNudges (nudges : List Nudge) : List Nudge :=
  nudges.mergeSort nudgeLe

/-- The data gathered before the evaluators run: the expense and category
reads, the user streak snapshot, the read-only aggregates, and the wall-clock
derived values.  Pulling these out makes each evaluator the pure function of
gathered data that it is in the source. -/
structure Gathered where
  expenses : List Expense
  categories : List Category
  streak : Streak
  spentThisMonth : String → ℚ
  spentInWindow : String → ℚ
  currentPeriodTotal : ℚ
  previousPeriodTotal : ℚ
  remainingDays : ℤ
  ts : ℕ

/-- generateAllNudges (aiService.js lines 65-98), success path: every
evaluator runs and the outputs are concatenated in source order. -/
def generateAllNudges (g : Gathered) : List Nudge :=
  (detectWeekendSpending g.expenses g.ts).toList ++
    detectBudgetOverspend g.categories g.spentThisMonth g.remainingDays g.ts ++
    (analyzeSpendingTrendsForNudge g.currentPeriodTotal g.previousPeriodTotal g.ts).toList ++
    generateMotivationalNudges g.streak g.ts ++
    detectCategoryPatterns g.expenses g.categories g.ts ++
    detectSavingsMilestones

/-- The spendingPatterns record built by analyzeSpendingTrends. -/
structure SpendingPatterns where
  isIncreasing : Bool
  trend : String
  changePercentage : ℚ
  currentPeriod : ℚ
  previousPeriod : ℚ
deriving DecidableEq, Repr

/-- analyzeSpendingTrends (aiService.js lines 393-418), as a function of the
two period totals. -/
def analyzeSpendingTrends (currentPeriodTotal previousPeriodTotal : ℚ) : SpendingPatterns :=
  let changePercentage :=
    if 0 < previousPeriodTotal then
      (currentPeriodTotal - previousPeriodTotal) / previousPeriodTotal * 100
    else 0
  let trend :=
    if 0 < previousPeriodTotal then
      if 5 < changePercentage then "up"
      else if changePercentage < -5 then "down"
      else "stable"
    else "stable"
  { isIncreasing := trend == "up"
    trend := trend
    changePercentage := roundTo 1 changePercentage
    currentPeriod := roundTo 2 currentPeriodTotal
    previousPeriod := roundTo 2 previousPeriodTotal }

/-- A categoryAlerts entry built by analyzeCategorySpending. -/
structure CategoryAlert where
  categoryId : String
  name : String
  spent : ℚ
  budget : ℚ
  percentage : ℚ
  overBudget : Bool
deriving DecidableEq, Repr

/-- Body of the per-category loop of analyzeCategorySpending (aiService.js
lines 426-451). -/
def categoryAlertFor (c : Category) (spent : ℚ) : List CategoryAlert :=
  match c.monthlyBudget with
  | none => []
  | some b =>
    if b ≤ 0 then []
    else
      let percentage := spent / b * 100
      if 100 ≤ percentage then
        [{ categoryId := c.id, name := c.name, spent := roundTo 2 spent, budget := b,
           percentage := roundTo 1 percentage, overBudget := true }]
      else if 80 ≤ percentage then
        [{ categoryId := c.id, name := c.name, spent := roundTo 2 spent, budget := b,
           percentage := roundTo 1 percentage, overBudget := false }]
      else []

/-- analyzeCategorySpending (aiService.js lines 423-454).  `spentInWindow`
models `getCategorySpending` over the requested window. -/
def analyzeCategorySpending (categories : List Category) (spentInWindow : String → ℚ) :
    List CategoryAlert :=
  categories.flatMap fun c => categoryAlertFor c (spentInWindow c.id)

/-- The insights object assembled by generateInsights (aiService.js lines
35-43); the period echo is carried by the caller and omitted here. -/
structure Insights where
  spendingPatterns : SpendingPatterns
  categoryAlerts : List CategoryAlert
  streakInfo : Streak

/-- The value returned by generateInsights. -/
structure InsightsResult where
  nudges : List Nudge
  insights : Insights

/-- generateInsights (aiService.js lines 14-60), success path: gather, run all
evaluators, prioritize and truncate to 5, and assemble the insights bundle. -/
def generateInsights (g : Gathered) : InsightsResult :=
  { nudges := (prioritizeNudges (generateAllNudges g)).take 5
    insights :=
      { spendingPatterns := analyzeSpendingTrends g.currentPeriodTotal g.previousPeriodTotal
        categoryAlerts := analyzeCategorySpending g.categories g.spentInWindow
        streakInfo := g.streak } }

/-- getUserCategories (aiService.js lines 465-467):
`Category.find({ userId, isActive: true })`, modelled as a filter over the
category collection. -/
def getUserCategories (store : List Category) (userId : String) : List Category :=
  store.filter fun c => c.userId == userId && c.isActive

/-- The evaluator loop of generateAllNudges under failures: the six evaluator
calls run in order inside a single try block, each appending its output to the
`nudges` accumulator; the first evaluator that throws transfers control to the
catch block, which only logs, after which the accumulated `nudges` array is
returned.  Evaluator outcomes are modelled as `Except` values. -/
def runEvaluators : List (Except String (List Nudge)) → List Nudge
  | [] => []
  | .ok ns :: rest => ns ++ runEvaluators rest
  | .error _ :: _ => []

/-- generateAllNudges (aiService.js lines 65-98) under evaluator failures: it
never propagates an evaluator error; it returns whatever was accumulated
before the first failure. -/
def generateAllNudgesE (results : List (Except String (List Nudge))) : List Nudge :=
  runEvaluators results

/-- generateInsights (aiService.js lines 14-60) under a data-gather failure:
the catch block rethrows, so a failed `Promise.all` of the three reads aborts
the whole call with the underlying error. -/
def generateInsightsE (gather : Except String Gathered) : Except String InsightsResult :=
  match gather with
  | .error e => .error e
  | .ok g => .ok (generateInsights g)

/-- A throwaway nudge value used to exercise the evaluator failure path. -/
def sampleNudge (tag : String) : Nudge :=
  { tag := tag, type := .weekendSpending, title := "", priority := .low,
    actionable := false, metadata := [], ts := 0 }

/-- An active category with a zero monthly budget. -/
def zeroBudgetCategory : Category :=
  { id := "c0", userId := "u1", name := "Misc", isActive := true, monthlyBudget := some 0 }

/-- C3: the spending-trend nudge detector emits nothing when the previous
period total is 0, emits nothing when the absolute percentage change is below
15, emits one medium-priority actionable spending-trend-up nudge when the
change exceeds 15, and emits one low-priority non-actionable
spending-trend-down nudge when the change is below -10 (and survives the
absolute-value gate). -/
theorem analyzeSpendingTrendsForNudge_spec (cur prev : ℚ) (ts : ℕ) :
    (prev = 0 → analyzeSpendingTrendsForNudge cur prev ts = none) ∧
    (prev ≠ 0 →
      (|(cur - prev) / prev * 100| < 15 → analyzeSpendingTrendsForNudge cur prev ts = none) ∧
      (15 < (cur - prev) / prev * 100 →
        (analyzeSpendingTrendsForNudge cur prev ts).map
            (fun n => (n.tag, n.type, n.priority, n.actionable)) =
          some ("spending_increase", NudgeType.spendingTrend, Priority.medium, true)) ∧
      ((cur - prev) / prev * 100 < -10 → 15 ≤ |(cur - prev) / prev * 100| →
        (analyzeSpendingTrendsForNudge cur prev ts).map
            (fun n => (n.tag, n.type, n.priority, n.actionable)) =
          some ("spending_decrease", NudgeType.spendingTrend, Priority.low, false))) := by
  constructor
  · intro h
    simp [analyzeSpendingTrendsForNudge, h]
  · intro hne
    refine ⟨fun habs => ?_, fun hup => ?_, fun hdown habs => ?_⟩
    · simp [analyzeSpendingTrendsForNudge, hne, habs]
    · have habs : ¬ |(cur - prev) / prev * 100| < 15 := by
        rw [not_lt, le_abs]
        exact Or.inl (by linarith)
      simp [analyzeSpendingTrendsForNudge, hne, habs, hup]
    · have hnup : ¬ 15 < (cur - prev) / prev * 100 := by
        intro h
        linarith
      simp [analyzeSpendingTrendsForNudge, hne, not_lt.mpr habs, hnup, hdown]

/-- C3 witness: at current total 1200 and previous total 1000 the change is
20 percent and the up-nudge fires. -/
theorem analyzeSpendingTrendsForNudge_spec_witness :
    (1000 : ℚ) ≠ 0 ∧ (15 : ℚ) < ((1200 : ℚ) - 1000) / 1000 * 100 ∧
    (analyzeSpendingTrendsForNudge 1200 1000 0).map
        (fun n => (n.tag, n.type, n.priority, n.actionable)) =
      some ("spending_increase", NudgeType.spendingTrend, Priority.medium, true) :=
  ⟨by norm_num, by norm_num,
    ((analyzeSpendingTrendsForNudge_spec 1200 1000 0).2 (by norm_num)).2.1 (by norm_num)⟩

/-- C6: the streak detector emits the 7-day milestone nudge exactly when the
current streak is 7, emits the personal-best nudge exactly when current =
longest, current > longest - 1 and current > 0, makes every emitted nudge
low-priority and non-actionable, flags the personal-best nudge with
personalBest = true, and both conditions are independent: current 7 with
longest 10 yields the milestone only, current 7 with longest 7 yields both. -/
theorem generateMotivationalNudges_spec (s : Streak) (ts : ℕ) :
    ((generateMotivationalNudges s ts).countP (fun n => n.tag == "streak_7") =
      if s.current = 7 then 1 else 0) ∧
    ((generateMotivationalNudges s ts).countP (fun n => n.tag == "personal_best") =
      if s.current = s.longest ∧ s.longest - 1 < s.current ∧ 0 < s.current then 1 else 0) ∧
    ((generateMotivationalNudges s ts).all
      (fun n => decide (n.priority = Priority.low) && !n.actionable)) = true ∧
    ((generateMotivationalNudges s ts).all
      (fun n => n.tag != "personal_best" ||
        decide (("personalBest", MetaVal.bool true) ∈ n.metadata))) = true ∧
    (generateMotivationalNudges ⟨7, 10⟩ ts).map Nudge.tag = ["streak_7"] ∧
    (generateMotivationalNudges ⟨7, 7⟩ ts).map Nudge.tag = ["streak_7", "personal_best"] := by
  refine ⟨?_, ?_, ?_, ?_, ?_, ?_⟩
  · simp only [generateMotivationalNudges, List.countP_append]
    split_ifs <;> simp
  · simp only [generateMotivationalNudges, List.countP_append]
    split_ifs <;> simp
  · simp only [generateMotivationalNudges, List.all_append]
    split_ifs <;> simp
  · simp only [generateMotivationalNudges, List.all_append]
    split_ifs <;> simp
  · norm_num [generateMotivationalNudges]
  · norm_num [generateMotivationalNudges]

/-- C7: the aggregator labels the trend up exactly when the change percentage
exceeds 5, down exactly when it is below -5, and stable otherwise; a zero
previous total reports changePercentage 0 and a stable trend; and at previous
1000 / current 1200 the aggregator reports up while the trend nudge detector
also fires the up nudge. -/
theorem analyzeSpendingTrends_spec (cur prev : ℚ) (ts : ℕ) :
    (prev = 0 → (analyzeSpendingTrends cur prev).changePercentage = 0 ∧
      (analyzeSpendingTrends cur prev).trend = "stable") ∧
    (0 < prev →
      ((analyzeSpendingTrends cur prev).trend = "up" ↔ 5 < (cur - prev) / prev * 100) ∧
      ((analyzeSpendingTrends cur prev).trend = "down" ↔ (cur - prev) / prev * 100 < -5) ∧
      ((analyzeSpendingTrends cur prev).trend = "stable" ↔
        -5 ≤ (cur - prev) / prev * 100 ∧ (cur - prev) / prev * 100 ≤ 5)) ∧
    (analyzeSpendingTrends 1200 1000).trend = "up" ∧
    ((analyzeSpendingTrendsForNudge 1200 1000 ts).map (fun n => (n.tag, n.priority)) =
      some ("spending_increase", Priority.medium)) := by
  refine ⟨?_, ?_, ?_, ?_⟩
  · intro h
    constructor
    · simp [analyzeSpendingTrends, h, roundTo]
    · simp [analyzeSpendingTrends, h]
  · intro hpos
    refine ⟨?_, ?_, ?_⟩ <;>
      · by_cases hup : 5 < (cur - prev) / prev * 100 <;>
          by_cases hdn : (cur - prev) / prev * 100 < -5 <;>
          simp [analyzeSpendingTrends, hpos, hup, hdn] <;>
          first
            | linarith
            | exact ⟨by linarith, by linarith⟩
  · norm_num [analyzeSpendingTrends]
  · norm_num [analyzeSpendingTrendsForNudge, abs_of_pos]

/-- C7 witness: instantiating the aggregator characterization at previous
total 1000, current total 1200 gives the up label. -/
theorem analyzeSpendingTrends_spec_witness :
    (0 : ℚ) < 1000 ∧ (5 : ℚ) < ((1200 : ℚ) - 1000) / 1000 * 100 ∧
    (analyzeSpendingTrends 1200 1000).trend = "up" :=
  ⟨by norm_num, by norm_num,
    (((analyzeSpendingTrends_spec 1200 1000 0).2.1 (by norm_num)).1).mpr (by norm_num)⟩

/-- C8 counterexample: an error thrown by the second evaluator is swallowed by
the catch block of generateAllNudges, which returns only the first evaluator
output; the third evaluator nudge is missing from the returned (non-error)
list, so an evaluator error does produce a partial nudge list. -/
theorem generateAllNudgesE_swallows :
    generateAllNudgesE
        [Except.ok [sampleNudge "a"], Except.error "store failure", Except.ok [sampleNudge "b"]] =
      [sampleNudge "a"] ∧
    sampleNudge "b" ∉ generateAllNudgesE
        [Except.ok [sampleNudge "a"], Except.error "store failure", Except.ok [sampleNudge "b"]] := by
  constructor
  · simp [generateAllNudgesE, runEvaluators]
  · simp [generateAllNudgesE, runEvaluators, sampleNudge]

/-- C8 as amended: a data-gather failure does propagate out of
generateInsights unchanged, but an error inside an evaluator is caught by
generateAllNudges, which returns the nudges accumulated from the evaluators
that ran before the failure (later evaluator output is dropped, no error is
propagated); when every evaluator succeeds the result is the full
concatenation. -/
theorem generateInsightsE_partial_spec :
    (∀ e : String, generateInsightsE (.error e) = .error e) ∧
    (∀ (pre : List (List Nudge)) (e : String) (rest : List (Except String (List Nudge))),
      generateAllNudgesE (pre.map Except.ok ++ Except.error e :: rest) = pre.flatten) ∧
    (∀ results : List (List Nudge),
      generateAllNudgesE (results.map Except.ok) = results.flatten) := by
  refine ⟨fun e => rfl, fun pre e rest => ?_, fun results => ?_⟩
  · induction pre with
    | nil => simp [generateAllNudgesE, runEvaluators]
    | cons ns pre ih => simpa [generateAllNudgesE, runEvaluators] using ih
  · induction results with
    | nil => simp [generateAllNudgesE, runEvaluators]
    | cons ns results ih => simpa [generateAllNudgesE, runEvaluators] using ih

/-- C9 counterexample: getUserCategories hands the evaluators an active
category whose monthly budget is zero, i.e. a category that is not
budget-tracked. -/
theorem getUserCategories_zero_budget :
    getUserCategories [zeroBudgetCategory] "u1" = [zeroBudgetCategory] ∧
    zeroBudgetCategory.monthlyBudget = some 0 := by
  constructor
  · simp [getUserCategories, zeroBudgetCategory]
  · rfl

/-- C9 as amended: the gatherer returns all of the user's active categories
regardless of budget; the budget-tracked restriction (monthly budget a number
greater than 0) is applied inside the budget evaluators, which skip
categories with an absent, zero or negative monthly budget. -/
theorem getUserCategories_spec :
    (∀ (store : List Category) (uid : String) (c : Category),
      c ∈ getUserCategories store uid ↔ c ∈ store ∧ c.userId = uid ∧ c.isActive = true) ∧
    (∀ (c : Category) (spent : ℚ) (rd : ℤ) (ts : ℕ), c.monthlyBudget = none →
      budgetNudgeFor c spent rd ts = [] ∧ categoryAlertFor c spent = []) ∧
    (∀ (c : Category) (b spent : ℚ) (rd : ℤ) (ts : ℕ),
      c.monthlyBudget = some b → b ≤ 0 →
      budgetNudgeFor c spent rd ts = [] ∧ categoryAlertFor c spent = []) := by
  refine ⟨fun store uid c => ?_, fun c spent rd ts h => ?_, fun c b spent rd ts h hb => ?_⟩
  · simp [getUserCategories, and_assoc]
  · simp [budgetNudgeFor, categoryAlertFor, h]
  · simp [budgetNudgeFor, categoryAlertFor, h, hb]

/-- C9 witness: the zero-budget category passes the gatherer filter but the
budget evaluator contributes nothing for it. -/
theorem getUserCategories_spec_witness :
    zeroBudgetCategory.monthlyBudget = some 0 ∧ (0 : ℚ) ≤ 0 ∧
    budgetNudgeFor zeroBudgetCategory 100 0 0 = [] ∧
    categoryAlertFor zeroBudgetCategory 100 = [] :=
  ⟨rfl, le_refl 0,
    (getUserCategories_spec.2.2 zeroBudgetCategory 0 100 0 0 rfl (le_refl 0)).1,
    (getUserCategories_spec.2.2 zeroBudgetCategory 0 100 0 0 rfl (le_refl 0)).2⟩

/-- C4: the weekend-overspend detector emits nothing when either partition is
empty; otherwise (for positive weekday spending, where the rational model
agrees with the source arithmetic) it emits exactly one weekend-overspend
nudge iff the weekend/weekday ratio exceeds 1.8, with priority high iff the
ratio exceeds 2.5 and medium otherwise, actionable, and metadata carrying the
ratio and the two averages rounded to 2 decimals; no nudge when the ratio is
at most 1.8. -/
theorem detectWeekendSpending_spec (expenses : List Expense) (ts : ℕ) :
    ((weekendExpensesOf expenses).length = 0 ∨ (weekdayExpensesOf expenses).length = 0 →
      detectWeekendSpending expenses ts = none) ∧
    ((weekendExpensesOf expenses).length ≠ 0 → (weekdayExpensesOf expenses).length ≠ 0 →
      0 < ((weekdayExpensesOf expenses).map Expense.amount).sum →
      (18 / 10 < weekendRatioOf expenses →
        (detectWeekendSpending expenses ts).map
            (fun n => (n.tag, n.priority, n.actionable, n.metadata)) =
          some ("weekend_spending",
            if 25 / 10 < weekendRatioOf expenses then Priority.high else Priority.medium,
            true,
            [("ratio", MetaVal.num (roundTo 2 (weekendRatioOf expenses))),
             ("weekendAvg", MetaVal.num (roundTo 2 (weekendAvgOf expenses))),
             ("weekdayAvg", MetaVal.num (roundTo 2 (weekdayAvgOf expenses)))])) ∧
      (weekendRatioOf expenses ≤ 18 / 10 → detectWeekendSpending expenses ts = none)) := by
  constructor
  · intro h
    simp only [detectWeekendSpending]
    rw [if_pos h]
  · intro h1 h2 _hamt
    constructor
    · intro hr
      simp [detectWeekendSpending, h1, h2, hr]
    · intro hr
      simp [detectWeekendSpending, h1, h2, not_lt.mpr hr]

/-- C4 witness: one Saturday expense of 100 against one Tuesday expense of 10
gives ratio 10, which exceeds 2.5, so the high-priority nudge fires. -/
theorem detectWeekendSpending_spec_witness :
    (weekendExpensesOf [⟨100, 6, "c1"⟩, ⟨10, 2, "c1"⟩]).length ≠ 0 ∧
    (weekdayExpensesOf [⟨100, 6, "c1"⟩, ⟨10, 2, "c1"⟩]).length ≠ 0 ∧
    0 < ((weekdayExpensesOf [⟨100, 6, "c1"⟩, ⟨10, 2, "c1"⟩]).map Expense.amount).sum ∧
    (18 : ℚ) / 10 < weekendRatioOf [⟨100, 6, "c1"⟩, ⟨10, 2, "c1"⟩] ∧
    (detectWeekendSpending [⟨100, 6, "c1"⟩, ⟨10, 2, "c1"⟩] 0).map
        (fun n => (n.tag, n.priority, n.actionable, n.metadata)) =
      some ("weekend_spending", Priority.high, true,
        [("ratio", MetaVal.num 10), ("weekendAvg", MetaVal.num 100),
         ("weekdayAvg", MetaVal.num 10)]) := by
  have h1 : (weekendExpensesOf [⟨100, 6, "c1"⟩, ⟨10, 2, "c1"⟩]).length ≠ 0 := by
    norm_num [weekendExpensesOf]
  have h2 : (weekdayExpensesOf [⟨100, 6, "c1"⟩, ⟨10, 2, "c1"⟩]).length ≠ 0 := by
    norm_num [weekdayExpensesOf]
  have hs : (0 : ℚ) < ((weekdayExpensesOf [⟨100, 6, "c1"⟩, ⟨10, 2, "c1"⟩]).map
      Expense.amount).sum := by
    norm_num [weekdayExpensesOf]
  have hr : (18 : ℚ) / 10 < weekendRatioOf [⟨100, 6, "c1"⟩, ⟨10, 2, "c1"⟩] := by
    norm_num [weekendRatioOf, weekendAvgOf, weekdayAvgOf, weekendExpensesOf, weekdayExpensesOf]
  have h := ((detectWeekendSpending_spec [⟨100, 6, "c1"⟩, ⟨10, 2, "c1"⟩] 0).2 h1 h2 hs).1 hr
  refine ⟨h1, h2, hs, hr, ?_⟩
  rw [h]
  norm_num [weekendRatioOf, weekendAvgOf, weekdayAvgOf, weekendExpensesOf, weekdayExpensesOf,
    roundTo]

/-- Every nudge emitted by the weekend detector has type weekend_spending. -/
lemma detectWeekendSpending_type {es : List Expense} {ts : ℕ} {n : Nudge}
    (h : detectWeekendSpending es ts = some n) : n.type = .weekendSpending := by
  simp only [detectWeekendSpending] at h
  split_ifs at h <;> simp_all
  all_goals subst h
  all_goals rfl

/-- Every nudge contributed by a category in the budget detector loop has
type budget_overage. -/
lemma budgetNudgeFor_type {c : Category} {s : ℚ} {rd : ℤ} {ts : ℕ} {n : Nudge}
    (h : n ∈ budgetNudgeFor c s rd ts) : n.type = .budgetOverage := by
  cases hb : c.monthlyBudget with
  | none => simp [budgetNudgeFor, hb] at h
  | some b =>
    simp only [budgetNudgeFor, hb] at h
    split_ifs at h <;> simp_all

/-- Every nudge emitted by the budget detector has type budget_overage. -/
lemma detectBudgetOverspend_type {cats : List Category} {sp : String → ℚ} {rd : ℤ} {ts : ℕ}
    {n : Nudge} (h : n ∈ detectBudgetOverspend cats sp rd ts) : n.type = .budgetOverage := by
  unfold detectBudgetOverspend at h
  simp only [List.mem_flatMap] at h
  obtain ⟨c, _, hn⟩ := h
  exact budgetNudgeFor_type hn

/-- Every nudge emitted by the trend detector has type spending_trend. -/
lemma analyzeSpendingTrendsForNudge_type {cur prev : ℚ} {ts : ℕ} {n : Nudge}
    (h : analyzeSpendingTrendsForNudge cur prev ts = some n) : n.type = .spendingTrend := by
  simp only [analyzeSpendingTrendsForNudge] at h
  split_ifs at h <;> simp_all
  all_goals subst h
  all_goals rfl

/-- Every nudge emitted by the streak detector has type streak_celebration. -/
lemma generateMotivationalNudges_type {s : Streak} {ts : ℕ} {n : Nudge}
    (h : n ∈ generateMotivationalNudges s ts) : n.type = .streakCelebration := by
  simp only [generateMotivationalNudges, List.mem_append] at h
  rcases h with h | h <;> split_ifs at h <;> simp_all

/-- Every nudge contributed by a category group in the pattern detector has
type category_pattern. -/
lemma patternNudgesFor_type {cid : String} {group : List Expense} {cats : List Category}
    {ts : ℕ} {n : Nudge} (h : n ∈ patternNudgesFor cid group cats ts) :
    n.type = .categoryPattern := by
  cases hf : cats.find? (fun c => c.id == cid) with
  | none => simp [patternNudgesFor, hf] at h
  | some c =>
    simp only [patternNudgesFor, hf, List.mem_append] at h
    rcases h with h | h <;> split_ifs at h <;> simp_all

/-- Every nudge emitted by the pattern detector has type category_pattern. -/
lemma detectCategoryPatterns_type {es : List Expense} {cats : List Category} {ts : ℕ}
    {n : Nudge} (h : n ∈ detectCategoryPatterns es cats ts) : n.type = .categoryPattern := by
  unfold detectCategoryPatterns at h
  simp only [List.mem_flatMap] at h
  obtain ⟨cid, _, hn⟩ := h
  exact patternNudgesFor_type hn

/-- No evaluator ever produces a savings_milestone nudge. -/
lemma generateAllNudges_type {g : Gathered} {n : Nudge} (h : n ∈ generateAllNudges g) :
    n.type ≠ .savingsMilestone := by
  unfold generateAllNudges at h
  simp only [List.mem_append, Option.mem_toList, Option.mem_def,
    detectSavingsMilestones, List.not_mem_nil, or_false] at h
  rcases h with (((h | h) | h) | h) | h
  · rw [detectWeekendSpending_type h]
    simp
  · rw [detectBudgetOverspend_type h]
    simp
  · rw [analyzeSpendingTrendsForNudge_type h]
    simp
  · rw [generateMotivationalNudges_type h]
    simp
  · rw [detectCategoryPatterns_type h]
    simp

/-- C10: savings_milestone is a declared nudge type, the savings-milestone
detector unconditionally returns the empty list, and no run of
generateInsights ever returns a savings_milestone nudge. -/
theorem generateInsights_no_savings_milestone :
    NudgeType.savingsMilestone ∈ NUDGE_TYPES ∧
    detectSavingsMilestones = ([] : List Nudge) ∧
    ∀ g : Gathered,
      ((generateInsights g).nudges.all fun n =>
        decide (n.type ≠ NudgeType.savingsMilestone)) = true := by
  refine ⟨by simp [NUDGE_TYPES], rfl, fun g => ?_⟩
  rw [List.all_eq_true]
  intro n hn
  have hn' : n ∈ (prioritizeNudges (generateAllNudges g)).take 5 := hn
  have h1 : n ∈ prioritizeNudges (generateAllNudges g) := (List.take_sublist 5 _).subset hn'
  have h2 : n ∈ generateAllNudges g := List.mem_mergeSort.mp h1
  simpa using generateAllNudges_type h2

/-- Filtering a flatMap whose pieces all filter to nothing gives nothing. -/
lemma flatMap_filter_nil {α β : Type} (p : β → Bool) (f : α → List β) (l : List α)
    (h : ∀ a ∈ l, (f a).filter p = []) : (l.flatMap f).filter p = [] := by
  induction l with
  | nil => rfl
  | cons a l ih =>
    simp only [List.flatMap_cons, List.filter_append]
    rw [h a (List.mem_cons_self a l), ih fun b hb => h b (List.mem_cons_of_mem a hb)]
    rfl

/-- Filtering a flatMap over distinct keys where only the key `k` can
contribute reduces to filtering the `k` piece. -/
lemma filter_flatMap_single {α β : Type} [DecidableEq α] (p : β → Bool) (f : α → List β)
    (l : List α) (k : α) (hnd : l.Nodup)
    (hk : ∀ a ∈ l, a ≠ k → (f a).filter p = []) :
    (l.flatMap f).filter p = if k ∈ l then (f k).filter p else [] := by
  induction l with
  | nil => simp
  | cons a l ih =>
    obtain ⟨hna, hnd'⟩ := List.nodup_cons.mp hnd
    simp only [List.flatMap_cons, List.filter_append]
    by_cases hak : a = k
    · subst hak
      rw [if_pos (List.mem_cons_self a l),
        flatMap_filter_nil p f l fun b hb =>
          hk b (List.mem_cons_of_mem a hb) fun hbk => absurd (hbk ▸ hb) hna,
        List.append_nil]
    · rw [hk a (List.mem_cons_self a l) hak, List.nil_append,
        ih hnd' fun b hb hbk => hk b (List.mem_cons_of_mem a hb) hbk]
      have hiff : (k ∈ a :: l) ↔ (k ∈ l) := by
        simp only [List.mem_cons]
        exact or_iff_right fun hka => hak hka.symm
      rw [if_congr hiff rfl rfl]

/-- The nudges of a run that carry a given category id in their metadata. -/
def categoryNudgesOf (nudges : List Nudge) (categoryId : String) : List Nudge :=
  nudges.filter fun n => decide (("categoryId", MetaVal.str categoryId) ∈ n.metadata)

/-- A category only contributes budget nudges tagged with its own id. -/
lemma budgetNudgeFor_filter_ne {cid : String} {c : Category} (s : ℚ) (rd : ℤ) (ts : ℕ)
    (h : cid ≠ c.id) :
    (budgetNudgeFor c s rd ts).filter
      (fun n => decide (("categoryId", MetaVal.str cid) ∈ n.metadata)) = [] := by
  cases hb : c.monthlyBudget with
  | none => simp [budgetNudgeFor, hb]
  | some b =>
    simp only [budgetNudgeFor, hb]
    split_ifs <;> simp [h]

/-- C2: for a budget-tracked category inside a run over distinct categories,
the budget detector emits exactly one high-priority budget_overage nudge when
the spent percentage is at least 100, exactly one medium-priority
budget_warning nudge (a distinct kind) when it lies in [80, 100), and nothing
below 80; the three bands are exhaustive and exclusive, so the category never
yields more than one nudge per run. -/
theorem detectBudgetOverspend_bands
    (categories : List Category) (spentThisMonth : String → ℚ) (rd : ℤ) (ts : ℕ)
    (c : Category) (b : ℚ) (hmem : c ∈ categories)
    (hnd : (categories.map Category.id).Nodup)
    (hb : c.monthlyBudget = some b) (hpos : 0 < b) :
    (100 ≤ spentThisMonth c.id / b * 100 →
      (categoryNudgesOf (detectBudgetOverspend categories spentThisMonth rd ts) c.id).map
          (fun n => (n.tag, n.priority, n.actionable)) =
        [("budget_overage", Priority.high, true)]) ∧
    (80 ≤ spentThisMonth c.id / b * 100 → spentThisMonth c.id / b * 100 < 100 →
      (categoryNudgesOf (detectBudgetOverspend categories spentThisMonth rd ts) c.id).map
          (fun n => (n.tag, n.priority, n.actionable)) =
        [("budget_warning", Priority.medium, true)]) ∧
    (spentThisMonth c.id / b * 100 < 80 →
      categoryNudgesOf (detectBudgetOverspend categories spentThisMonth rd ts) c.id = []) ∧
    (categoryNudgesOf (detectBudgetOverspend categories spentThisMonth rd ts) c.id).length
      ≤ 1 := by
  have hsingle :
      categoryNudgesOf (detectBudgetOverspend categories spentThisMonth rd ts) c.id =
        (budgetNudgeFor c (spentThisMonth c.id) rd ts).filter
          (fun n => decide (("categoryId", MetaVal.str c.id) ∈ n.metadata)) := by
    unfold categoryNudgesOf detectBudgetOverspend
    rw [filter_flatMap_single _ _ _ c (List.Nodup.of_map _ hnd) fun a ha hne =>
      budgetNudgeFor_filter_ne _ _ _ fun hid =>
        hne (List.inj_on_of_nodup_map hnd ha hmem hid.symm)]
    rw [if_pos hmem]
  rw [hsingle]
  by_cases h1 : 100 ≤ spentThisMonth c.id / b * 100
  · simp only [budgetNudgeFor, hb]
    rw [if_neg (not_le.mpr hpos), if_pos h1]
    refine ⟨fun _ => by simp, fun h80 h100 => absurd h1 (not_le.mpr h100),
      fun h80 => by linarith, by simp⟩
  · by_cases h2 : 80 ≤ spentThisMonth c.id / b * 100
    · simp only [budgetNudgeFor, hb]
      rw [if_neg (not_le.mpr hpos), if_neg h1, if_pos h2]
      refine ⟨fun h100 => absurd h100 h1, fun _ _ => by simp, fun h80 => by linarith, by simp⟩
    · simp only [budgetNudgeFor, hb]
      rw [if_neg (not_le.mpr hpos), if_neg h1, if_neg h2]
      refine ⟨fun h100 => absurd h100 h1, fun h80 _ => absurd h80 h2, fun _ => rfl, by simp⟩

/-- A food category with a 5000 monthly budget. -/
def foodCategory : Category :=
  { id := "food", userId := "u1", name := "Food", isActive := true, monthlyBudget := some 5000 }

/-- C2 witness: spending 6000 against the 5000 budget is 120 percent, which
produces exactly the single high-priority overage nudge. -/
theorem detectBudgetOverspend_bands_witness :
    foodCategory ∈ [foodCategory] ∧
    ([foodCategory].map Category.id).Nodup ∧
    foodCategory.monthlyBudget = some 5000 ∧ (0 : ℚ) < 5000 ∧
    (100 : ℚ) ≤ 6000 / 5000 * 100 ∧
    (categoryNudgesOf (detectBudgetOverspend [foodCategory] (fun _ => 6000) 10 0)
        foodCategory.id).map (fun n => (n.tag, n.priority, n.actionable)) =
      [("budget_overage", Priority.high, true)] :=
  ⟨List.mem_cons_self _ _, by simp, rfl, by norm_num, by norm_num,
    (detectBudgetOverspend_bands [foodCategory] (fun _ => 6000) 10 0 foodCategory 5000
      (List.mem_cons_self _ _) (by simp) rfl (by norm_num)).1 (by norm_num)⟩

/-- Membership in an inserted key list. -/
lemma mem_insertKey {ks : List String} {k a : String} :
    a ∈ insertKey ks k ↔ a ∈ ks ∨ a = k := by
  unfold insertKey
  split_ifs with h
  · constructor
    · exact Or.inl
    · rintro (h' | rfl)
      · exact h'
      · exact h
  · simp [List.mem_append]

/-- Key insertion preserves distinctness. -/
lemma insertKey_nodup {ks : List String} (k : String) (h : ks.Nodup) :
    (insertKey ks k).Nodup := by
  unfold insertKey
  split_ifs with hk
  · exact h
  · simp [List.nodup_append, h, hk]

/-- Membership in the grouping-object key fold. -/
lemma mem_foldl_insertKey (es : List Expense) (acc : List String) (a : String) :
    a ∈ es.foldl (fun ks e => insertKey ks e.categoryId) acc ↔
      a ∈ acc ∨ ∃ e ∈ es, e.categoryId = a := by
  induction es generalizing acc with
  | nil => simp
  | cons e es ih =>
    simp only [List.foldl_cons, ih, mem_insertKey, List.mem_cons, exists_eq_or_imp]
    constructor
    · rintro ((h | h) | h)
      · exact Or.inl h
      · exact Or.inr (Or.inl h.symm)
      · exact Or.inr (Or.inr h)
    · rintro (h | h | h)
      · exact Or.inl (Or.inl h)
      · exact Or.inl (Or.inr h.symm)
      · exact Or.inr h

/-- A category id is a grouping key iff some expense references it. -/
lemma mem_groupKeys {es : List Expense} {a : String} :
    a ∈ groupKeys es ↔ ∃ e ∈ es, e.categoryId = a := by
  unfold groupKeys
  rw [mem_foldl_insertKey]
  simp

/-- The grouping keys are distinct. -/
lemma groupKeys_nodup (es : List Expense) : (groupKeys es).Nodup := by
  unfold groupKeys
  generalize h : ([] : List String) = acc
  have hacc : acc.Nodup := h ▸ List.nodup_nil
  clear h
  induction es generalizing acc with
  | nil => exact hacc
  | cons e es ih => exact ih _ (insertKey_nodup _ hacc)

/-- The spending-spike nudges of a run that carry a given category id. -/
def spikeNudgesOf (nudges : List Nudge) (categoryId : String) : List Nudge :=
  nudges.filter fun n =>
    n.tag == "unusual_spike" && decide (("categoryId", MetaVal.str categoryId) ∈ n.metadata)

/-- The descending-sorted amount list the spike check inspects for one
category (aiService.js line 330). -/
def sortedAmountsOf (expenses : List Expense) (categoryId : String) : List ℚ :=
  ((expenses.filter fun e => e.categoryId == categoryId).map Expense.amount).mergeSort
    fun a b => decide (b ≤ a)

/-- A category group only contributes spike nudges tagged with its own id. -/
lemma patternNudgesFor_filter_ne {cid cid' : String} (group : List Expense)
    (cats : List Category) (ts : ℕ) (h : cid ≠ cid') :
    (patternNudgesFor cid' group cats ts).filter
      (fun n => n.tag == "unusual_spike" &&
        decide (("categoryId", MetaVal.str cid) ∈ n.metadata)) = [] := by
  cases hf : cats.find? (fun c => c.id == cid') with
  | none => simp [patternNudgesFor, hf]
  | some c =>
    simp only [patternNudgesFor, hf]
    rw [List.filter_append]
    split_ifs <;> simp [h]

/-- C5: for a category present in the category list, once its window
transaction count reaches 3 the spike detector emits exactly one
medium-priority actionable spending-spike nudge iff the largest amount (the
head of the descending sort) exceeds 5 times the element at the
lower-middle index floor(n/2); with fewer than 3 transactions it never emits
a spike nudge. -/
theorem detectCategoryPatterns_spike_spec
    (expenses : List Expense) (categories : List Category) (ts : ℕ) (c : Category)
    (hfind : categories.find? (fun x => x.id == c.id) = some c) :
    (3 ≤ (sortedAmountsOf expenses c.id).length →
      (spikeNudgesOf (detectCategoryPatterns expenses categories ts) c.id).map
          (fun n => (n.tag, n.priority, n.actionable)) =
        (if (sortedAmountsOf expenses c.id).getD ((sortedAmountsOf expenses c.id).length / 2) 0
              * 5 <
            (sortedAmountsOf expenses c.id).getD 0 0
         then [("unusual_spike", Priority.medium, true)]
         else [])) ∧
    ((sortedAmountsOf expenses c.id).length < 3 →
      spikeNudgesOf (detectCategoryPatterns expenses categories ts) c.id = []) := by
  have hsingle :
      spikeNudgesOf (detectCategoryPatterns expenses categories ts) c.id =
        if c.id ∈ groupKeys expenses then
          (patternNudgesFor c.id (expenses.filter fun e => e.categoryId == c.id) categories
              ts).filter
            (fun n => n.tag == "unusual_spike" &&
              decide (("categoryId", MetaVal.str c.id) ∈ n.metadata))
        else [] := by
    unfold spikeNudgesOf detectCategoryPatterns
    exact filter_flatMap_single _ _ _ c.id (groupKeys_nodup expenses)
      fun cid' h' hne => patternNudgesFor_filter_ne _ _ _ (Ne.symm hne)
  by_cases hmem : c.id ∈ groupKeys expenses
  · rw [hsingle, if_pos hmem]
    simp only [patternNudgesFor, hfind, sortedAmountsOf]
    rw [List.filter_append]
    constructor
    · intro h3
      rw [if_pos h3]
      split_ifs <;> simp
    · intro h3
      rw [if_neg (not_le.mpr h3)]
      split_ifs <;> simp
  · rw [hsingle, if_neg hmem]
    have hemp : (expenses.filter fun e => e.categoryId == c.id) = [] := by
      rw [List.filter_eq_nil_iff]
      intro e he
      simp only [beq_iff_eq]
      exact fun hc => hmem (mem_groupKeys.mpr ⟨e, he, hc⟩)
    have hlen : (sortedAmountsOf expenses c.id).length = 0 := by
      simp [sortedAmountsOf, hemp, List.length_mergeSort]
    exact ⟨fun h3 => absurd (hlen ▸ h3) (by norm_num), fun _ => rfl⟩

/-- An entertainment category with no budget. -/
def spikeCategory : Category :=
  { id := "ent", userId := "u1", name := "Fun", isActive := true, monthlyBudget := none }

/-- Three expenses in one category whose largest amount dwarfs the rest. -/
def spikeExpenses : List Expense :=
  [⟨1000, 1, "ent"⟩, ⟨50, 2, "ent"⟩, ⟨40, 3, "ent"⟩]

/-- C5 witness: amounts 1000/50/40 sort to [1000, 50, 40]; the lower-middle
element is 50 and 1000 > 250, so the single spike nudge fires. -/
theorem detectCategoryPatterns_spike_spec_witness :
    [spikeCategory].find? (fun x => x.id == spikeCategory.id) = some spikeCategory ∧
    3 ≤ (sortedAmountsOf spikeExpenses spikeCategory.id).length ∧
    (spikeNudgesOf (detectCategoryPatterns spikeExpenses [spikeCategory] 0)
        spikeCategory.id).map (fun n => (n.tag, n.priority, n.actionable)) =
      [("unusual_spike", Priority.medium, true)] := by
  have hfind : [spikeCategory].find? (fun x => x.id == spikeCategory.id) =
      some spikeCategory := by
    simp [spikeCategory]
  have hsort : sortedAmountsOf spikeExpenses spikeCategory.id = [1000, 50, 40] := by
    norm_num [sortedAmountsOf, spikeExpenses, spikeCategory, List.mergeSort]
  have hlen : 3 ≤ (sortedAmountsOf spikeExpenses spikeCategory.id).length := by
    rw [hsort]
    norm_num
  have h := (detectCategoryPatterns_spike_spec spikeExpenses [spikeCategory] 0 spikeCategory
    hfind).1 hlen
  rw [hsort] at h
  norm_num at h
  exact ⟨hfind, hlen, h⟩

/-- The nudge comparator test is transitive. -/
lemma nudgeLe_trans : ∀ a b c : Nudge,
    nudgeLe a b = true → nudgeLe b c = true → nudgeLe a c = true := by
  intro a b c hab hbc
  simp only [nudgeLe, Bool.or_eq_true, Bool.and_eq_true, decide_eq_true_eq] at *
  rcases hab with h | ⟨h1, h2⟩ <;> rcases hbc with h' | ⟨h1', h2'⟩
  · exact Or.inl (h.trans h')
  · exact Or.inl (h1' ▸ h)
  · exact Or.inl (h1 ▸ h')
  · exact Or.inr ⟨h1.trans h1', le_trans h2' h2⟩

/-- The nudge comparator test is total. -/
lemma nudgeLe_total : ∀ a b : Nudge, (nudgeLe a b || nudgeLe b a) = true := by
  intro a b
  simp only [nudgeLe, Bool.or_eq_true, Bool.and_eq_true, decide_eq_true_eq]
  omega

/-- Stability of prioritizeNudges: the nudges in any one tie class (same
priority rank and same embedded timestamp) come out in their input order. -/
lemma prioritizeNudges_filter_key (ns : List Nudge) (r : ℤ) (t : ℕ) :
    (prioritizeNudges ns).filter (fun n => decide (priorityOrder n.priority = r ∧ n.ts = t)) =
      ns.filter fun n => decide (priorityOrder n.priority = r ∧ n.ts = t) := by
  set p : Nudge → Bool := fun n => decide (priorityOrder n.priority = r ∧ n.ts = t) with hp
  have hsub : (ns.filter p).Sublist (ns.mergeSort nudgeLe) := by
    apply List.sublist_mergeSort nudgeLe_trans nudgeLe_total
    · apply List.pairwise_of_forall_mem_list
      intro a ha b hb
      have hpa := (List.mem_filter.mp ha).2
      have hpb := (List.mem_filter.mp hb).2
      simp only [hp, decide_eq_true_eq] at hpa hpb
      simp only [nudgeLe, Bool.or_eq_true, Bool.and_eq_true, decide_eq_true_eq]
      exact Or.inr ⟨hpa.1.trans hpb.1.symm, le_of_eq (hpb.2.trans hpa.2.symm)⟩
    · exact List.filter_sublist ns
  have hperm : ((ns.mergeSort nudgeLe).filter p).Perm (ns.filter p) :=
    (List.mergeSort_perm ns nudgeLe).filter p
  have hsub2 : (ns.filter p).Sublist ((ns.mergeSort nudgeLe).filter p) := by
    have h2 : (ns.filter p).filter p = ns.filter p := by
      rw [List.filter_filter]
      simp
    have := List.Sublist.filter p hsub
    rwa [h2] at this
  exact (hsub2.eq_of_length hperm.length_eq.symm).symm

/-- C1: generateInsights returns the concatenated evaluator outputs sorted by
the priority comparator and truncated to the first 5: the returned list is
the sorted list cut at 5, the sort is a permutation of the concatenation, the
result never exceeds 5 entries, consecutive entries are ordered by priority
rank high(1) < medium(2) < low(3) with equal-priority entries in descending
embedded-timestamp order (so no lower-priority nudge precedes a
higher-priority one), and the sort is stable on ties. -/
theorem generateInsights_nudges_spec (g : Gathered) :
    (generateInsights g).nudges = (prioritizeNudges (generateAllNudges g)).take 5 ∧
    (prioritizeNudges (generateAllNudges g)).Perm (generateAllNudges g) ∧
    (generateInsights g).nudges.length ≤ 5 ∧
    List.Pairwise
      (fun a b => priorityOrder a.priority < priorityOrder b.priority ∨
        (priorityOrder a.priority = priorityOrder b.priority ∧ b.ts ≤ a.ts))
      (generateInsights g).nudges ∧
    List.Pairwise (fun a b => priorityOrder a.priority ≤ priorityOrder b.priority)
      (generateInsights g).nudges ∧
    ∀ (r : ℤ) (t : ℕ),
      (prioritizeNudges (generateAllNudges g)).filter
          (fun n => decide (priorityOrder n.priority = r ∧ n.ts = t)) =
        (generateAllNudges g).filter
          (fun n => decide (priorityOrder n.priority = r ∧ n.ts = t)) := by
  have hsorted : List.Pairwise (fun a b => nudgeLe a b = true)
      (List.mergeSort (generateAllNudges g) nudgeLe) :=
    List.sorted_mergeSort nudgeLe_trans nudgeLe_total _
  have htake : List.Pairwise (fun a b => nudgeLe a b = true) (generateInsights g).nudges :=
    List.Pairwise.sublist (List.take_sublist 5 _) hsorted
  refine ⟨rfl, List.mergeSort_perm _ nudgeLe, List.length_take_le 5 _, ?_, ?_,
    fun r t => prioritizeNudges_filter_key _ r t⟩
  · refine htake.imp fun h => ?_
    simpa only [nudgeLe, Bool.or_eq_true, Bool.and_eq_true, decide_eq_true_eq] using h
  · refine htake.imp fun h => ?_
    simp only [nudgeLe, Bool.or_eq_true, Bool.and_eq_true, decide_eq_true_eq] at h
    rcases h with h | ⟨h, _⟩
    · exact le_of_lt h
    · exact le_of_eq h

end SpendSmart
